import Mathlib

/-!
A verification development for the `relayer-utils` Java-binding layer.

The two source files embedded here are `src/java_impl.rs` (the core
functions `generate_email_auth_input_for_java`,
`generate_email_nullifier_for_java`, `generate_publickey_hash_for_java`,
`generate_email_hash_for_java`) and `src/java_lib.rs` (the four JNI entry
points and the `JavaResponse` envelope).

Modelling conventions:
* Rust byte strings and `Vec<u8>` are `List Nat` (each element a byte value).
* `usize` arithmetic is `Nat` with explicit wrapping modulo `2 ^ 64`
  (`usizeSub`), matching release-build two's-complement wrapping of
  `usize` subtraction; debug builds would panic on underflow instead,
  which is noted where it matters.
* Fallible Rust code is `Except String` (for `Result`) together with an
  outcome type `RustOutcome` that also records unwinding panics, so that
  `panic::catch_unwind` at the JNI boundary can be modelled faithfully.
* External collaborators that are not part of the two source files
  (the email parser's getters, `email_nullifier`, `public_key_hash`,
  `hex2field`, `field2hex`, the circuit padder, salt derivation, JSON
  serialization) are parameters of the embedded functions: only their
  call contracts are relevant, exactly as the specification scopes them.
-/

/-- Outcome of running a piece of Rust code: a normal value, a structured
`Err` carried by `Result`, or an unwinding panic with its payload message. -/
inductive RustOutcome (α : Type) where
  | ok : α → RustOutcome α
  | err : String → RustOutcome α
  | panicked : String → RustOutcome α
deriving Repr, DecidableEq

/-- `2 ^ 64`, the modulus of `usize` arithmetic on the 64-bit targets the
library is built for. -/
def USIZE : Nat := 2 ^ 64

/-- Release-mode `usize` subtraction `a - b`: wraps modulo `2 ^ 64` on
underflow (debug builds would panic instead). -/
def usizeSub (a b : Nat) : Nat := (a + (USIZE - b % USIZE)) % USIZE

/-- The message carried by the panic that `.unwrap()` raises on an `Err`
value (punctuation abbreviated from the Rust standard-library text). -/
def unwrapMsg (e : String) : String :=
  "called Result.unwrap on an Err value: " ++ e

/-- A parsed email as the core consumes it: the canonicalized header bytes,
the raw signature and public-key bytes, and the result of each of the seven
range getters (`get_from_addr_idxes`, `get_email_domain_idxes`,
`get_subject_all_idxes`, `get_address_idxes`, `get_pubkey_idxes`,
`get_validator_idxes`, `get_timestamp_idxes`), each a `(start, end)` pair
or an error.  The getters themselves live in the external parser module;
only their results reach the code under verification, so they are stored
as fields. -/
structure ParsedEmail where
  canonicalized_header : List Nat
  signature : List Nat
  public_key : List Nat
  from_addr_idxes : Except String (Nat × Nat)
  email_domain_idxes : Except String (Nat × Nat)
  subject_all_idxes : Except String (Nat × Nat)
  address_idxes : Except String (Nat × Nat)
  pubkey_idxes : Except String (Nat × Nat)
  validator_idxes : Except String (Nat × Nat)
  timestamp_idxes : Except String (Nat × Nat)

/-- Modelled from the spec: `CircuitInputParams` is built by the external
`circuit` module (not among the provided source files); the core only
constructs it positionally with `CircuitInputParams::new` and hands it to
`generate_circuit_inputs`, so it is modelled as a plain record of the nine
arguments the core passes. -/
structure CircuitInputParams where
  body : List Nat
  header : List Nat
  body_hash : String
  signature : Int
  pubkey : Int
  ignore_body_hash_check : Option Bool
  max_header_length : Option Nat
  max_body_length : Option Nat
  sha_precompute_selector : Option Bool

/-- Modelled from the spec: the output of the external circuit padder
(`generate_circuit_inputs`), of which the core reads exactly the four
fields `in_padded`, `pubkey`, `signature` and `in_len_padded_bytes`
(padded header bytes/array, padded key and signature, padded length). -/
structure EmailCircuitInputs where
  in_padded : List Nat
  pubkey : List Nat
  signature : List Nat
  in_len_padded_bytes : Nat

/-- Modelled from the spec: `AccountCode` wraps one field element (`.0` in
the source is `.val` here); it is opaque to the core and passed through. -/
structure AccountCode (Fe : Type) where
  val : Fe

/-- Modelled from the spec: the `EmailAuthInput` exchange structure —
padded header bytes, padded public key and signature, padded header
length, hex-encoded account code, and the seven integer offsets. -/
structure EmailAuthInput where
  padded_header : List Nat
  public_key : List Nat
  signature : List Nat
  padded_header_len : Nat
  account_code : String
  from_addr_idx : Nat
  subject_idx : Nat
  domain_idx : Nat
  timestamp_idx : Nat
  address_idx : Nat
  pubkey_idx : Nat
  validator_idx : Nat
deriving Repr, DecidableEq

/-- The `CircuitInputParams::new(...)` call of
`generate_email_auth_input_for_java` (src/java_impl.rs lines 6-16): empty
body, the canonicalized header bytes, empty body hash, signature and
public key as big integers, and the fixed option arguments. -/
def circuitParamsOf (v2b : List Nat → Int) (pe : ParsedEmail) : CircuitInputParams :=
  { body := []
    header := pe.canonicalized_header
    body_hash := ""
    signature := v2b pe.signature
    pubkey := v2b pe.public_key
    ignore_body_hash_check := none
    max_header_length := some 1024
    max_body_length := some 64
    sha_precompute_selector := some true }

/-- The `EmailAuthInput` assembly of `generate_email_auth_input_for_java`
(src/java_impl.rs lines 4-68), stopping just before the final
`serde_json::to_string`.  `parse` is the external
`ParsedEmail::new_from_raw_email` (its failure propagates through `?` as a
structured error), `v2b` is `vec_u8_to_bigint`, `gen_circuit` is
`circuit::generate_circuit_inputs`, `f2h` is `field2hex`.  The
from-address and domain getters are consumed with `.unwrap()` in the
source, hence a panic on failure; the subject getter's failure is returned
as a structured error; the four optional getters default their start
offset to `0` on failure, after which each of the four offsets has the
subject start subtracted with wrapping `usize` subtraction. -/
def email_auth_input_of {Fe : Type}
    (parse : String → Except String ParsedEmail)
    (v2b : List Nat → Int)
    (gen_circuit : CircuitInputParams → EmailCircuitInputs)
    (f2h : Fe → String)
    (email : String) (account_code : AccountCode Fe) :
    RustOutcome EmailAuthInput :=
  match parse email with
  | .error e => .err e
  | .ok parsed_email =>
    let circuit_input_params := circuitParamsOf v2b parsed_email
    let email_circuit_inputs := gen_circuit circuit_input_params
    match parsed_email.from_addr_idxes with
    | .error e => .panicked (unwrapMsg e)
    | .ok fa =>
      match parsed_email.email_domain_idxes with
      | .error e => .panicked (unwrapMsg e)
      | .ok dom =>
        match parsed_email.subject_all_idxes with
        | .error e => .err e
        | .ok subj =>
          let subject_idx := subj.1
          let address_idx :=
            match parsed_email.address_idxes with
            | .ok indexes => indexes.1
            | .error _ => 0
          let pubkey_idx :=
            match parsed_email.pubkey_idxes with
            | .ok indexes => indexes.1
            | .error _ => 0
          let validator_idx :=
            match parsed_email.validator_idxes with
            | .ok indexes => indexes.1
            | .error _ => 0
          let address_idx := usizeSub address_idx subject_idx
          let pubkey_idx := usizeSub pubkey_idx subject_idx
          let validator_idx := usizeSub validator_idx subject_idx
          let timestamp_idx :=
            match parsed_email.timestamp_idxes with
            | .ok indexes => indexes.1
            | .error _ => 0
          let timestamp_idx := usizeSub timestamp_idx subject_idx
          .ok
            { padded_header := email_circuit_inputs.in_padded
              public_key := email_circuit_inputs.pubkey
              signature := email_circuit_inputs.signature
              padded_header_len := email_circuit_inputs.in_len_padded_bytes
              account_code := f2h account_code.val
              from_addr_idx := fa.1
              subject_idx := subject_idx
              domain_idx := dom.1
              timestamp_idx := timestamp_idx
              address_idx := address_idx
              pubkey_idx := pubkey_idx
              validator_idx := validator_idx }

/-- `generate_email_auth_input_for_java` itself: the assembled
`EmailAuthInput` serialized by the external `serde_json::to_string`
(parameter `toJson`). -/
def generate_email_auth_input_for_java {Fe : Type}
    (parse : String → Except String ParsedEmail)
    (v2b : List Nat → Int)
    (gen_circuit : CircuitInputParams → EmailCircuitInputs)
    (f2h : Fe → String)
    (toJson : EmailAuthInput → String)
    (email : String) (account_code : AccountCode Fe) :
    RustOutcome String :=
  match email_auth_input_of parse v2b gen_circuit f2h email account_code with
  | .ok eai => .ok (toJson eai)
  | .err e => .err e
  | .panicked p => .panicked p

/-- `generate_email_nullifier_for_java` (src/java_impl.rs lines 73-87):
reverse the signature bytes in place, hand them to the external
`email_nullifier` primitive, hex-encode the resulting field element with
`field2hex`; a primitive error becomes a structured contextualized error. -/
def generate_email_nullifier_for_java {Fe : Type}
    (email_nullifier : List Nat → Except String Fe)
    (f2h : Fe → String)
    (signature : List Nat) : RustOutcome String :=
  let signature := signature.reverse
  match email_nullifier signature with
  | .ok nullifier => .ok (f2h nullifier)
  | .error e => .err ("email_nullifier compute failed " ++ e)

/-- One hex digit's value, for the byte value of an ASCII character,
mirroring what `hex::decode` accepts (`0-9`, `a-f`, `A-F`). -/
def hexDigit? (c : Nat) : Option Nat :=
  if 48 ≤ c ∧ c ≤ 57 then some (c - 48)
  else if 97 ≤ c ∧ c ≤ 102 then some (c - 87)
  else if 65 ≤ c ∧ c ≤ 70 then some (c - 55)
  else none

/-- The observable contract of the external `hex::decode` on a byte
string: pairs of hex digits become bytes; an odd length or a non-hex
character is an error (error text abbreviated from the hex crate's). -/
def hexDecode : List Nat → Except String (List Nat)
  | [] => .ok []
  | [_] => .error "Odd number of digits"
  | c1 :: c2 :: rest =>
    match hexDigit? c1, hexDigit? c2, hexDecode rest with
    | some hi, some lo, .ok bs => .ok ((16 * hi + lo) :: bs)
    | none, _, _ => .error "Invalid character"
    | some _, none, _ => .error "Invalid character"
    | some _, some _, .error e => .error e

/-- Whether byte index `i` is a char boundary of the UTF-8 byte string
`s`, as Rust's `str` slicing checks it: the start, the end, or any byte
that is not a UTF-8 continuation byte (`0x80..0xBF`). -/
def isCharBoundary (s : List Nat) (i : Nat) : Bool :=
  i == 0 || i == s.length ||
    (decide (i < s.length) &&
      (match s.get? i with
       | some b => decide (b < 128) || decide (192 ≤ b)
       | none => false))

/-- Rust's `&s[2..]` on a string: the bytes from index 2 on when 2 is a
char boundary at or before the end, and a panic otherwise (index out of
bounds for strings shorter than 2 bytes, or a non-boundary slice). -/
def rustStrFrom2 (s : List Nat) : RustOutcome (List Nat) :=
  if 2 ≤ s.length ∧ isCharBoundary s 2 then .ok (s.drop 2)
  else .panicked "byte index 2 is out of bounds or not a char boundary"

/-- Render a byte string for an error message (used where the source
interpolates the input string into the message). -/
def bytesRepr (bs : List Nat) : String :=
  String.mk (bs.map (fun b => Char.ofNat b))

/-- `generate_publickey_hash_for_java` (src/java_impl.rs lines 89-112):
slice off the first two bytes with `&publickey[2..]` (a panic when the
input is shorter than the prefix — nothing checks the prefix content),
hex-decode the remainder (structured error on malformed hex), reverse the
decoded bytes, hand them to the external `public_key_hash` primitive and
hex-encode the result. -/
def generate_publickey_hash_for_java {Fe : Type}
    (public_key_hash : List Nat → Except String Fe)
    (f2h : Fe → String)
    (publickey : List Nat) : RustOutcome String :=
  match rustStrFrom2 publickey with
  | .panicked p => .panicked p
  | .err e => .err e
  | .ok sliced =>
    match hexDecode sliced with
    | .error e =>
      .err ("the input string " ++ bytesRepr publickey ++ " is invalid hex: " ++ e)
    | .ok bytes =>
      let bytes := bytes.reverse
      match public_key_hash bytes with
      | .ok hashed => .ok (f2h hashed)
      | .error e => .err ("email_nullifier compute failed " ++ e)

/-- `generate_email_hash_for_java` (src/java_impl.rs lines 114-125): pad
the email address with the external `PaddedEmailAddr::from_email_addr`,
parse the account code hex with `hex2field` (its failure propagates
through `?`), derive the salt with the external `AccountSalt::new`
(failure becomes a contextualized structured error), hex-encode. -/
def generate_email_hash_for_java {Fe Addr : Type}
    (from_email_addr : String → Addr)
    (h2f : String → Except String Fe)
    (account_salt_new : Addr → AccountCode Fe → Except String Fe)
    (f2h : Fe → String)
    (email_addr account_code_str : String) : RustOutcome String :=
  let padded_email_addr := from_email_addr email_addr
  match h2f account_code_str with
  | .error e => .err e
  | .ok account_code =>
    match account_salt_new padded_email_addr (AccountCode.mk account_code) with
    | .ok account_salt => .ok (f2h account_salt)
    | .error e => .err ("AccountSalt failed: " ++ e)

/-- The response envelope of src/java_lib.rs lines 26-53. -/
structure JavaResponse where
  code : Nat
  msg : String
  data : Option String
deriving Repr, DecidableEq

/-- `JavaResponse::error_response`: code 1, no data, message naming the
caller-supplied context and the error's rendering. -/
def JavaResponse.error_response (errmsg : String) (err : String) : JavaResponse :=
  { code := 1
    msg := "err_msg: " ++ errmsg ++ " reason:" ++ err
    data := none }

/-- `JavaResponse::success_response`: code 0, the payload in `data`. -/
def JavaResponse.success_response (input : String) : JavaResponse :=
  { code := 0
    msg := "rust call success"
    data := some input }

/-- The envelope shape invariant of the specification: the code is 0 or 1,
the message is non-empty, and data is present exactly when the code is 0. -/
def envelopeShaped (r : JavaResponse) : Prop :=
  (r.code = 0 ∨ r.code = 1) ∧ (r.data.isSome = true ↔ r.code = 0) ∧
    r.msg.length ≠ 0

/-- The shared shape of the four JNI entry points' tail: run the core call
followed by `.unwrap()` inside `panic::catch_unwind`, then wrap the
outcome — a success envelope for a normal return, an error envelope
(tagged with the entry point's fixed context string) for a caught panic.
A structured `Err` from the core becomes an `unwrap` panic inside the
closure, hence is also caught here. -/
def jni_boundary (errmsg : String) (core : RustOutcome String) : JavaResponse :=
  match core with
  | .ok r => JavaResponse.success_response r
  | .err e => JavaResponse.error_response errmsg (unwrapMsg e)
  | .panicked p => JavaResponse.error_response errmsg p

/-- The closure body of the `generateEmailInput` entry point
(src/java_lib.rs lines 115-122) up to the final `.unwrap()`:
`hex2field(&account_code).unwrap()` (a panic on bad hex), wrap into an
`AccountCode`, then drive `generate_email_auth_input_for_java` to
completion on a fresh runtime (`Runtime::new().unwrap()` is modelled as
succeeding; its failure would be one more panic caught at the boundary). -/
def generateEmailInput_core {Fe : Type}
    (h2f : String → Except String Fe)
    (parse : String → Except String ParsedEmail)
    (v2b : List Nat → Int)
    (gen_circuit : CircuitInputParams → EmailCircuitInputs)
    (f2h : Fe → String)
    (toJson : EmailAuthInput → String)
    (email account_code : String) : RustOutcome String :=
  match h2f account_code with
  | .error e => .panicked (unwrapMsg e)
  | .ok f =>
    generate_email_auth_input_for_java parse v2b gen_circuit f2h toJson
      email (AccountCode.mk f)

/-- The `generateEmailInput` JNI entry point (src/java_lib.rs lines
82-139).  Each `JString` argument arrives as the result of
`env.get_string` — an already-decoded string or a JNI error, each failure
answered with its own error envelope before core logic runs; then the
core closure runs inside `panic::catch_unwind` and the caught-panic
branch uses the fixed context string of the source. -/
def generateEmailInput_entry {Fe : Type}
    (h2f : String → Except String Fe)
    (parse : String → Except String ParsedEmail)
    (v2b : List Nat → Int)
    (gen_circuit : CircuitInputParams → EmailCircuitInputs)
    (f2h : Fe → String)
    (toJson : EmailAuthInput → String)
    (email account_code : Except String String) : JavaResponse :=
  match email with
  | .error e => JavaResponse.error_response "can not got email from input" e
  | .ok email =>
    match account_code with
    | .error e => JavaResponse.error_response "can not got account code from input" e
    | .ok account_code =>
      jni_boundary "account is wrong value"
        (generateEmailInput_core h2f parse v2b gen_circuit f2h toJson
          email account_code)

/-- The `emailnullifer` JNI entry point (src/java_lib.rs lines 142-182):
decode the byte array (error envelope on JNI failure), then run
`generate_email_nullifier_for_java(...).unwrap()` under `catch_unwind`. -/
def emailnullifer_entry {Fe : Type}
    (email_nullifier : List Nat → Except String Fe)
    (f2h : Fe → String)
    (signature : Except String (List Nat)) : JavaResponse :=
  match signature with
  | .error e => JavaResponse.error_response "can not got signature" e
  | .ok sig =>
    jni_boundary "generate_email_nullifier failed"
      (generate_email_nullifier_for_java email_nullifier f2h sig)

/-- The `publickeyHash` JNI entry point (src/java_lib.rs lines 186-226):
decode the string (error envelope on JNI failure), then run
`generate_publickey_hash_for_java(...).unwrap()` under `catch_unwind`. -/
def publickeyHash_entry {Fe : Type}
    (public_key_hash : List Nat → Except String Fe)
    (f2h : Fe → String)
    (publickey : Except String (List Nat)) : JavaResponse :=
  match publickey with
  | .error e => JavaResponse.error_response "can not got publickey" e
  | .ok pk =>
    jni_boundary "generate_publickey_hash_for_java failed"
      (generate_publickey_hash_for_java public_key_hash f2h pk)

/-- The `emailHash` JNI entry point (src/java_lib.rs lines 229-283):
decode both strings (error envelope on either JNI failure), then run
`generate_email_hash_for_java(...).unwrap()` under `catch_unwind`. -/
def emailHash_entry {Fe Addr : Type}
    (from_email_addr : String → Addr)
    (h2f : String → Except String Fe)
    (account_salt_new : Addr → AccountCode Fe → Except String Fe)
    (f2h : Fe → String)
    (email_addr account_code : Except String String) : JavaResponse :=
  match email_addr with
  | .error e => JavaResponse.error_response "can not got email_addr" e
  | .ok ea =>
    match account_code with
    | .error e => JavaResponse.error_response "can not got account_code" e
    | .ok ac =>
      jni_boundary "generate_email_hash_for_java failed"
        (generate_email_hash_for_java from_email_addr h2f account_salt_new f2h ea ac)

/-- Whether an `Except` value is an error. -/
def exceptFailed {ε α : Type} : Except ε α → Bool
  | .error _ => true
  | .ok _ => false

/-- Test fixture: a stub circuit padder returning a fixed output. -/
def gen0 : CircuitInputParams → EmailCircuitInputs :=
  fun _ => { in_padded := [7], pubkey := [8], signature := [9], in_len_padded_bytes := 1024 }

/-- Test fixture: a stub `vec_u8_to_bigint`. -/
def v2b0 : List Nat → Int := fun _ => 0

/-- Test fixture: a parsed email in which all seven ranges resolve; the
subject starts at 80, the address at 100, the validator at 120 (the
spec's round-trip scenario), the pubkey at 130 and the timestamp at 90. -/
def peAll : ParsedEmail :=
  { canonicalized_header := [104, 105]
    signature := [1]
    public_key := [2]
    from_addr_idxes := .ok (5, 15)
    email_domain_idxes := .ok (9, 15)
    subject_all_idxes := .ok (80, 180)
    address_idxes := .ok (100, 110)
    pubkey_idxes := .ok (130, 150)
    validator_idxes := .ok (120, 130)
    timestamp_idxes := .ok (90, 98) }

/-- Test fixture: as `peAll` but with all four optional ranges failing. -/
def peNoOpt : ParsedEmail :=
  { peAll with
    address_idxes := .error "no address"
    pubkey_idxes := .error "no pubkey"
    validator_idxes := .error "no validator"
    timestamp_idxes := .error "no timestamp" }

/-- Test fixture: as `peAll` but with only the address range failing (a
mixed case: pubkey, validator and timestamp still resolve). -/
def peNoAddr : ParsedEmail :=
  { peAll with address_idxes := .error "no address" }

/-- Test fixture: as `peAll` but with the from-address range failing. -/
def peNoFrom : ParsedEmail :=
  { peAll with from_addr_idxes := .error "from addr not found" }

/-- Test fixture: the envelope the `generateEmailInput` entry point
produces for a request whose raw email fails to parse (the account code
decoding fine), with stub collaborators. -/
def mimeFailResponse : JavaResponse :=
  @generateEmailInput_entry Nat (fun _ => Except.ok 7)
    (fun _ => Except.error "bad mime structure") v2b0 gen0
    (fun n : Nat => toString n) (fun _ => "json")
    (Except.ok "raw email") (Except.ok "00ab")

/-- `usizeSub` is plain subtraction when no underflow occurs. -/
theorem usizeSub_of_le (a s : Nat) (h1 : s ≤ a) (h2 : a < USIZE) :
    usizeSub a s = a - s := by
  unfold usizeSub
  rw [Nat.mod_eq_of_lt (show s < USIZE by omega)]
  have h3 : a + (USIZE - s) = a - s + USIZE := by omega
  rw [h3, Nat.add_mod_right, Nat.mod_eq_of_lt (by omega)]

/-- `usizeSub 0 s` wraps to `2 ^ 64 - s` for `0 < s < 2 ^ 64`. -/
theorem usizeSub_zero_wraps (s : Nat) (h1 : 0 < s) (h2 : s < USIZE) :
    usizeSub 0 s = USIZE - s := by
  unfold usizeSub
  rw [Nat.mod_eq_of_lt h2, Nat.zero_add, Nat.mod_eq_of_lt (by omega)]

/-- C1: for a ParsedEmail in which the subject, address, pubkey, validator
and timestamp ranges all resolve (and, as the coordinate model intends,
each of the four subject-relative fields starts at or after the subject
start), the assembled EmailAuthInput has address_idx, pubkey_idx,
validator_idx and timestamp_idx equal to the respective absolute start
minus the subject start, while from_addr_idx, domain_idx and subject_idx
are the absolute starts unmodified. -/
theorem C1_coordinate_duality {Fe : Type}
    (parse : String → Except String ParsedEmail)
    (v2b : List Nat → Int)
    (gen_circuit : CircuitInputParams → EmailCircuitInputs)
    (f2h : Fe → String) (toJson : EmailAuthInput → String)
    (email : String) (ac : AccountCode Fe) (pe : ParsedEmail)
    (fa fa2 d d2 s s2 a a2 p p2 v v2 t t2 : Nat)
    (hparse : parse email = Except.ok pe)
    (hfa : pe.from_addr_idxes = Except.ok (fa, fa2))
    (hd : pe.email_domain_idxes = Except.ok (d, d2))
    (hs : pe.subject_all_idxes = Except.ok (s, s2))
    (ha : pe.address_idxes = Except.ok (a, a2))
    (hp : pe.pubkey_idxes = Except.ok (p, p2))
    (hv : pe.validator_idxes = Except.ok (v, v2))
    (ht : pe.timestamp_idxes = Except.ok (t, t2))
    (hsa : s ≤ a) (hsp : s ≤ p) (hsv : s ≤ v) (hst : s ≤ t)
    (hBa : a < USIZE) (hBp : p < USIZE) (hBv : v < USIZE) (hBt : t < USIZE) :
    email_auth_input_of parse v2b gen_circuit f2h email ac =
      RustOutcome.ok
        { padded_header := (gen_circuit (circuitParamsOf v2b pe)).in_padded
          public_key := (gen_circuit (circuitParamsOf v2b pe)).pubkey
          signature := (gen_circuit (circuitParamsOf v2b pe)).signature
          padded_header_len := (gen_circuit (circuitParamsOf v2b pe)).in_len_padded_bytes
          account_code := f2h ac.val
          from_addr_idx := fa
          subject_idx := s
          domain_idx := d
          timestamp_idx := t - s
          address_idx := a - s
          pubkey_idx := p - s
          validator_idx := v - s } ∧
    generate_email_auth_input_for_java parse v2b gen_circuit f2h toJson email ac =
      RustOutcome.ok (toJson
        { padded_header := (gen_circuit (circuitParamsOf v2b pe)).in_padded
          public_key := (gen_circuit (circuitParamsOf v2b pe)).pubkey
          signature := (gen_circuit (circuitParamsOf v2b pe)).signature
          padded_header_len := (gen_circuit (circuitParamsOf v2b pe)).in_len_padded_bytes
          account_code := f2h ac.val
          from_addr_idx := fa
          subject_idx := s
          domain_idx := d
          timestamp_idx := t - s
          address_idx := a - s
          pubkey_idx := p - s
          validator_idx := v - s }) := by
  have h1 : email_auth_input_of parse v2b gen_circuit f2h email ac =
      RustOutcome.ok
        { padded_header := (gen_circuit (circuitParamsOf v2b pe)).in_padded
          public_key := (gen_circuit (circuitParamsOf v2b pe)).pubkey
          signature := (gen_circuit (circuitParamsOf v2b pe)).signature
          padded_header_len := (gen_circuit (circuitParamsOf v2b pe)).in_len_padded_bytes
          account_code := f2h ac.val
          from_addr_idx := fa
          subject_idx := s
          domain_idx := d
          timestamp_idx := t - s
          address_idx := a - s
          pubkey_idx := p - s
          validator_idx := v - s } := by
    unfold email_auth_input_of
    rw [hparse]
    simp only [hfa, hd, hs, ha, hp, hv, ht]
    rw [usizeSub_of_le a s hsa hBa, usizeSub_of_le p s hsp hBp,
      usizeSub_of_le v s hsv hBv, usizeSub_of_le t s hst hBt]
  refine ⟨h1, ?_⟩
  unfold generate_email_auth_input_for_java
  rw [h1]

/-- Witness for C1: on the fixture email with subject start 80, address
start 100, pubkey start 130, validator start 120 and timestamp start 90,
the assembled input carries address_idx 20, pubkey_idx 50, validator_idx
40 and timestamp_idx 10, and from_addr_idx 5, domain_idx 9, subject_idx
80 unmodified. -/
theorem C1_coordinate_duality_witness :
    email_auth_input_of (fun _ => Except.ok peAll) v2b0 gen0
        (fun n : Nat => toString n) "raw" ⟨3⟩ =
      RustOutcome.ok
        { padded_header := [7]
          public_key := [8]
          signature := [9]
          padded_header_len := 1024
          account_code := "3"
          from_addr_idx := 5
          subject_idx := 80
          domain_idx := 9
          timestamp_idx := 10
          address_idx := 20
          pubkey_idx := 50
          validator_idx := 40 } ∧
    generate_email_auth_input_for_java (fun _ => Except.ok peAll) v2b0 gen0
        (fun n : Nat => toString n) (fun _ => "json") "raw" ⟨3⟩ =
      RustOutcome.ok "json" := by
  have h := @C1_coordinate_duality Nat (fun _ => Except.ok peAll) v2b0 gen0
    (fun n : Nat => toString n) (fun _ => "json") "raw" ⟨3⟩ peAll
    5 15 9 15 80 180 100 110 130 150 120 130 90 98
    rfl rfl rfl rfl rfl rfl rfl rfl
    (by decide) (by decide) (by decide) (by decide)
    (by decide) (by decide) (by decide) (by decide)
  exact ⟨by simpa using h.1, by simpa using h.2⟩

/-- C2: a panic raised inside any of the four entry points' core calls (or
their collaborators) never propagates past the invocation boundary: the
shared boundary maps every panicked outcome to a serialized error envelope
(code 1, no data, the payload in the message), and each of the four entry
points routes its core call through that boundary once its host arguments
have decoded. -/
theorem C2_fault_containment :
    (∀ errmsg p : String,
      jni_boundary errmsg (RustOutcome.panicked p) =
        JavaResponse.error_response errmsg p ∧
      (jni_boundary errmsg (RustOutcome.panicked p)).code = 1 ∧
      (jni_boundary errmsg (RustOutcome.panicked p)).data = none ∧
      (jni_boundary errmsg (RustOutcome.panicked p)).msg =
        "err_msg: " ++ errmsg ++ " reason:" ++ p) ∧
    (∀ (Fe : Type) (h2f : String → Except String Fe)
        (parse : String → Except String ParsedEmail)
        (v2b : List Nat → Int)
        (gen_circuit : CircuitInputParams → EmailCircuitInputs)
        (f2h : Fe → String) (toJson : EmailAuthInput → String)
        (email account_code : String),
      generateEmailInput_entry h2f parse v2b gen_circuit f2h toJson
          (Except.ok email) (Except.ok account_code) =
        jni_boundary "account is wrong value"
          (generateEmailInput_core h2f parse v2b gen_circuit f2h toJson
            email account_code)) ∧
    (∀ (Fe : Type) (en : List Nat → Except String Fe) (f2h : Fe → String)
        (sig : List Nat),
      emailnullifer_entry en f2h (Except.ok sig) =
        jni_boundary "generate_email_nullifier failed"
          (generate_email_nullifier_for_java en f2h sig)) ∧
    (∀ (Fe : Type) (pkh : List Nat → Except String Fe) (f2h : Fe → String)
        (pk : List Nat),
      publickeyHash_entry pkh f2h (Except.ok pk) =
        jni_boundary "generate_publickey_hash_for_java failed"
          (generate_publickey_hash_for_java pkh f2h pk)) ∧
    (∀ (Fe Addr : Type) (pad : String → Addr)
        (h2f : String → Except String Fe)
        (salt : Addr → AccountCode Fe → Except String Fe) (f2h : Fe → String)
        (ea ac : String),
      emailHash_entry pad h2f salt f2h (Except.ok ea) (Except.ok ac) =
        jni_boundary "generate_email_hash_for_java failed"
          (generate_email_hash_for_java pad h2f salt f2h ea ac)) := by
  refine ⟨fun errmsg p => ⟨rfl, rfl, rfl, rfl⟩, ?_, ?_, ?_, ?_⟩
  · intro Fe h2f parse v2b gen_circuit f2h toJson email account_code
    rfl
  · intro Fe en f2h sig
    rfl
  · intro Fe pkh f2h pk
    rfl
  · intro Fe Addr pad h2f salt f2h ea ac
    rfl

/-- C3 (code bug evidence): when the from-address range — or, the
from-address range resolving, the domain range — fails to resolve, the
assembly does not return a structured error: it panics (the source
consumes both getters with `.unwrap()`), so the request is aborted by an
uncontrolled unwind rather than the structured fatal error the
specification requires.  No partial EmailAuthInput is produced either
way. -/
theorem C3_required_field_panics {Fe : Type}
    (parse : String → Except String ParsedEmail)
    (v2b : List Nat → Int)
    (gen_circuit : CircuitInputParams → EmailCircuitInputs)
    (f2h : Fe → String)
    (email : String) (ac : AccountCode Fe) (pe : ParsedEmail)
    (e : String) (fa : Nat × Nat)
    (hparse : parse email = Except.ok pe)
    (h : pe.from_addr_idxes = Except.error e ∨
      (pe.from_addr_idxes = Except.ok fa ∧ pe.email_domain_idxes = Except.error e)) :
    email_auth_input_of parse v2b gen_circuit f2h email ac =
      RustOutcome.panicked (unwrapMsg e) := by
  unfold email_auth_input_of
  rw [hparse]
  rcases h with hfa | ⟨hfa, hd⟩
  · simp only [hfa]
  · simp only [hfa, hd]

/-- Witness for C3: on the fixture email whose from-address range fails,
the assembly ends in a panic carrying the unwrap message. -/
theorem C3_required_field_panics_witness :
    email_auth_input_of (fun _ => Except.ok peNoFrom) v2b0 gen0
        (fun n : Nat => toString n) "raw" ⟨3⟩ =
      RustOutcome.panicked (unwrapMsg "from addr not found") :=
  @C3_required_field_panics Nat (fun _ => Except.ok peNoFrom) v2b0 gen0
    (fun n : Nat => toString n) "raw" ⟨3⟩ peNoFrom
    "from addr not found" (0, 0) rfl (Or.inl rfl)

/-- C4: whatever subset of the optional address, pubkey, validator and
timestamp ranges fails to resolve (the required from-address, domain and
subject ranges resolving), the request does not fail: assembly always
continues to a success result, each optional getter is consumed
independently, and each unresolvable optional field's start offset
defaults to 0 (the `Except.error _ => 0` arms below) before the subject
start is subtracted. -/
theorem C4_optional_absent_as_zero {Fe : Type}
    (parse : String → Except String ParsedEmail)
    (v2b : List Nat → Int)
    (gen_circuit : CircuitInputParams → EmailCircuitInputs)
    (f2h : Fe → String)
    (email : String) (ac : AccountCode Fe) (pe : ParsedEmail)
    (fa fa2 d d2 s s2 : Nat)
    (hparse : parse email = Except.ok pe)
    (hfa : pe.from_addr_idxes = Except.ok (fa, fa2))
    (hd : pe.email_domain_idxes = Except.ok (d, d2))
    (hs : pe.subject_all_idxes = Except.ok (s, s2)) :
    email_auth_input_of parse v2b gen_circuit f2h email ac =
      RustOutcome.ok
        { padded_header := (gen_circuit (circuitParamsOf v2b pe)).in_padded
          public_key := (gen_circuit (circuitParamsOf v2b pe)).pubkey
          signature := (gen_circuit (circuitParamsOf v2b pe)).signature
          padded_header_len := (gen_circuit (circuitParamsOf v2b pe)).in_len_padded_bytes
          account_code := f2h ac.val
          from_addr_idx := fa
          subject_idx := s
          domain_idx := d
          timestamp_idx := usizeSub
            (match pe.timestamp_idxes with
              | Except.ok indexes => indexes.1
              | Except.error _ => 0) s
          address_idx := usizeSub
            (match pe.address_idxes with
              | Except.ok indexes => indexes.1
              | Except.error _ => 0) s
          pubkey_idx := usizeSub
            (match pe.pubkey_idxes with
              | Except.ok indexes => indexes.1
              | Except.error _ => 0) s
          validator_idx := usizeSub
            (match pe.validator_idxes with
              | Except.ok indexes => indexes.1
              | Except.error _ => 0) s } ∧
    (exceptFailed pe.address_idxes = true →
      (match pe.address_idxes with
        | Except.ok indexes => indexes.1
        | Except.error _ => 0) = 0) ∧
    (exceptFailed pe.pubkey_idxes = true →
      (match pe.pubkey_idxes with
        | Except.ok indexes => indexes.1
        | Except.error _ => 0) = 0) ∧
    (exceptFailed pe.validator_idxes = true →
      (match pe.validator_idxes with
        | Except.ok indexes => indexes.1
        | Except.error _ => 0) = 0) ∧
    (exceptFailed pe.timestamp_idxes = true →
      (match pe.timestamp_idxes with
        | Except.ok indexes => indexes.1
        | Except.error _ => 0) = 0) := by
  refine ⟨?_, ?_, ?_, ?_, ?_⟩
  · unfold email_auth_input_of
    rw [hparse]
    simp only [hfa, hd, hs]
  · intro hfail
    cases hx : pe.address_idxes with
    | ok i => rw [hx] at hfail; simp [exceptFailed] at hfail
    | error e => rfl
  · intro hfail
    cases hx : pe.pubkey_idxes with
    | ok i => rw [hx] at hfail; simp [exceptFailed] at hfail
    | error e => rfl
  · intro hfail
    cases hx : pe.validator_idxes with
    | ok i => rw [hx] at hfail; simp [exceptFailed] at hfail
    | error e => rfl
  · intro hfail
    cases hx : pe.timestamp_idxes with
    | ok i => rw [hx] at hfail; simp [exceptFailed] at hfail
    | error e => rfl

/-- Witness for C4, a mixed case: only the address range fails while
pubkey, validator and timestamp resolve; the assembly still succeeds, the
address start defaults to 0 (then normalizes against subject start 80),
and the three resolving optional fields keep their own normalized
offsets. -/
theorem C4_optional_absent_as_zero_witness :
    (email_auth_input_of (fun _ => Except.ok peNoAddr) v2b0 gen0
        (fun n : Nat => toString n) "raw" ⟨3⟩ =
      RustOutcome.ok
        { padded_header := [7]
          public_key := [8]
          signature := [9]
          padded_header_len := 1024
          account_code := "3"
          from_addr_idx := 5
          subject_idx := 80
          domain_idx := 9
          timestamp_idx := 10
          address_idx := usizeSub 0 80
          pubkey_idx := 50
          validator_idx := 40 }) ∧
    (match peNoAddr.address_idxes with
      | Except.ok indexes => indexes.1
      | Except.error _ => 0) = 0 := by
  have h := @C4_optional_absent_as_zero Nat (fun _ => Except.ok peNoAddr)
    v2b0 gen0 (fun n : Nat => toString n) "raw" ⟨3⟩ peNoAddr
    5 15 9 15 80 180 rfl rfl rfl rfl
  exact ⟨by simpa using h.1, h.2.1 rfl⟩

/-- C5 (code bug evidence): with the optional ranges absent and subject
start 80, the defaulted-then-normalized offsets are NOT given an
explicitly defined non-wrapping value: release-build `usize` subtraction
silently wraps `0 - 80` to `2 ^ 64 - 80 = 18446744073709551536`, and that
wrapped value is what the success result carries (a debug build would
panic on the same underflow instead). -/
theorem C5_absent_offset_wraps :
    email_auth_input_of (fun _ => Except.ok peNoOpt) v2b0 gen0
        (fun n : Nat => toString n) "raw" ⟨3⟩ =
      RustOutcome.ok
        { padded_header := [7]
          public_key := [8]
          signature := [9]
          padded_header_len := 1024
          account_code := "3"
          from_addr_idx := 5
          subject_idx := 80
          domain_idx := 9
          timestamp_idx := 18446744073709551536
          address_idx := 18446744073709551536
          pubkey_idx := 18446744073709551536
          validator_idx := 18446744073709551536 } ∧
    18446744073709551536 = USIZE - 80 ∧ 0 < (80 : Nat) := by
  refine ⟨rfl, rfl, by decide⟩

/-- C6: the nullifier function hands the hash primitive exactly the
byte-reversed signature and hex-encodes the field element the primitive
returns: whenever the primitive maps the reversed bytes to `n`, the result
is the success `f2h n`. -/
theorem C6_nullifier_reverses {Fe : Type}
    (email_nullifier : List Nat → Except String Fe)
    (f2h : Fe → String) (sig : List Nat) (n : Fe)
    (h : email_nullifier sig.reverse = Except.ok n) :
    generate_email_nullifier_for_java email_nullifier f2h sig =
      RustOutcome.ok (f2h n) := by
  simp only [generate_email_nullifier_for_java, h]

/-- Witness for C6, the spec's stub-primitive scenario: substituting a
recording primitive that returns its input bytes unchanged, the signature
[0x01, 0x02, 0x03, 0x04] makes the primitive receive exactly
[0x04, 0x03, 0x02, 0x01]. -/
theorem C6_nullifier_reverses_witness :
    generate_email_nullifier_for_java (fun bs => Except.ok bs)
        (fun bs => toString bs) [1, 2, 3, 4] =
      RustOutcome.ok "[4, 3, 2, 1]" := by
  have h := C6_nullifier_reverses (fun bs => Except.ok bs)
    (fun bs => toString bs) [1, 2, 3, 4] [4, 3, 2, 1] rfl
  simpa using h

/-- `rustStrFrom2` either slices (when the input is at least 2 bytes long
and byte 2 is a char boundary) or panics. -/
theorem rustStrFrom2_total (s : List Nat) :
    (rustStrFrom2 s = RustOutcome.ok (s.drop 2) ∧ 2 ≤ s.length) ∨
    rustStrFrom2 s =
      RustOutcome.panicked "byte index 2 is out of bounds or not a char boundary" := by
  unfold rustStrFrom2
  by_cases hc : 2 ≤ s.length ∧ isCharBoundary s 2
  · exact Or.inl ⟨if_pos hc, hc.1⟩
  · exact Or.inr (if_neg hc)

/-- C7: a publicKey input shorter than the 2-byte prefix, or whose
remainder after the prefix is not valid hex, makes the publickeyHash entry
point answer an error envelope — code 1, no data — rather than crash: the
short input's slicing panic is caught at the boundary, and the malformed
remainder's structured decoding error is unwrapped into a caught panic the
same way. -/
theorem C7_malformed_publickey_error {Fe : Type}
    (public_key_hash : List Nat → Except String Fe)
    (f2h : Fe → String) (pk : List Nat)
    (h : pk.length < 2 ∨ exceptFailed (hexDecode (pk.drop 2)) = true) :
    (publickeyHash_entry public_key_hash f2h (Except.ok pk)).code = 1 ∧
    (publickeyHash_entry public_key_hash f2h (Except.ok pk)).data = none := by
  have hroute : publickeyHash_entry public_key_hash f2h (Except.ok pk) =
      jni_boundary "generate_publickey_hash_for_java failed"
        (generate_publickey_hash_for_java public_key_hash f2h pk) := rfl
  rw [hroute]
  have hnotok : ∀ v, generate_publickey_hash_for_java public_key_hash f2h pk ≠
      RustOutcome.ok v := by
    intro v hv
    unfold generate_publickey_hash_for_java at hv
    rcases rustStrFrom2_total pk with ⟨h2, hlen⟩ | h2
    · rw [h2] at hv
      rcases h with hshort | hdec
      · omega
      · cases hde : hexDecode (pk.drop 2) with
        | error e => simp [hde] at hv
        | ok bs => rw [hde] at hdec; simp [exceptFailed] at hdec
    · rw [h2] at hv
      simp at hv
  cases hg : generate_publickey_hash_for_java public_key_hash f2h pk with
  | ok v => exact absurd hg (hnotok v)
  | err e => exact ⟨rfl, rfl⟩
  | panicked p => exact ⟨rfl, rfl⟩

/-- Witness for C7: the one-byte input "0" (shorter than the prefix)
yields a code-1 envelope with no data. -/
theorem C7_malformed_publickey_error_witness :
    (publickeyHash_entry (fun _ => Except.ok (0 : Nat))
        (fun n => toString n) (Except.ok [48])).code = 1 ∧
    (publickeyHash_entry (fun _ => Except.ok (0 : Nat))
        (fun n => toString n) (Except.ok [48])).data = none :=
  C7_malformed_publickey_error (fun _ => Except.ok (0 : Nat))
    (fun n => toString n) [48] (Or.inl (by decide))

/-- Every error envelope is well shaped: code 1, no data, non-empty
message. -/
theorem envelopeShaped_error (a b : String) :
    envelopeShaped (JavaResponse.error_response a b) := by
  refine ⟨Or.inr rfl, by simp [JavaResponse.error_response], ?_⟩
  have h9 : ("err_msg: " : String).length = 9 := rfl
  simp only [JavaResponse.error_response, String.length_append, h9]
  omega

/-- Every success envelope is well shaped: code 0, data present,
non-empty message. -/
theorem envelopeShaped_success (s : String) :
    envelopeShaped (JavaResponse.success_response s) := by
  refine ⟨Or.inl rfl, by simp [JavaResponse.success_response], ?_⟩
  show ("rust call success" : String).length ≠ 0
  decide

/-- Every envelope leaving the fault-isolation boundary is well shaped. -/
theorem envelopeShaped_boundary (em : String) (r : RustOutcome String) :
    envelopeShaped (jni_boundary em r) := by
  cases r with
  | ok v => exact envelopeShaped_success v
  | err e => exact envelopeShaped_error em (unwrapMsg e)
  | panicked p => exact envelopeShaped_error em p

/-- C8: every response envelope produced by any of the four entry points —
on decode failures, caught panics, structured errors and successes alike —
satisfies the shape invariant: code is 0 or 1, msg is non-empty, and data
is present exactly when code is 0 (so data is absent whenever code is 1);
each entry point returns exactly one envelope per request. -/
theorem C8_envelope_shape :
    (∀ (Fe : Type) (h2f : String → Except String Fe)
        (parse : String → Except String ParsedEmail)
        (v2b : List Nat → Int)
        (gen_circuit : CircuitInputParams → EmailCircuitInputs)
        (f2h : Fe → String) (toJson : EmailAuthInput → String)
        (email account_code : Except String String),
      envelopeShaped (generateEmailInput_entry h2f parse v2b gen_circuit
        f2h toJson email account_code)) ∧
    (∀ (Fe : Type) (en : List Nat → Except String Fe) (f2h : Fe → String)
        (sig : Except String (List Nat)),
      envelopeShaped (emailnullifer_entry en f2h sig)) ∧
    (∀ (Fe : Type) (pkh : List Nat → Except String Fe) (f2h : Fe → String)
        (pk : Except String (List Nat)),
      envelopeShaped (publickeyHash_entry pkh f2h pk)) ∧
    (∀ (Fe Addr : Type) (pad : String → Addr)
        (h2f : String → Except String Fe)
        (salt : Addr → AccountCode Fe → Except String Fe) (f2h : Fe → String)
        (ea ac : Except String String),
      envelopeShaped (emailHash_entry pad h2f salt f2h ea ac)) := by
  refine ⟨?_, ?_, ?_, ?_⟩
  · intro Fe h2f parse v2b gen_circuit f2h toJson email account_code
    cases email with
    | error e => exact envelopeShaped_error _ e
    | ok em =>
      cases account_code with
      | error e => exact envelopeShaped_error _ e
      | ok ac => exact envelopeShaped_boundary _ _
  · intro Fe en f2h sig
    cases sig with
    | error e => exact envelopeShaped_error _ e
    | ok s => exact envelopeShaped_boundary _ _
  · intro Fe pkh f2h pk
    cases pk with
    | error e => exact envelopeShaped_error _ e
    | ok p => exact envelopeShaped_boundary _ _
  · intro Fe Addr pad h2f salt f2h ea ac
    cases ea with
    | error e => exact envelopeShaped_error _ e
    | ok a =>
      cases ac with
      | error e => exact envelopeShaped_error _ e
      | ok c => exact envelopeShaped_boundary _ _

set_option maxRecDepth 16384 in
/-- C9 counterexample: a `generateEmailInput` request whose failure is the
raw email failing to parse (the account code decoded fine) produces a
code-1 envelope whose message does not name the failing operation: it
contains neither "parse" nor the core function's name, and instead names a
different operation — it asserts the account is the wrong value.  The
underlying cause is appended, but the failing operation is misattributed,
so the msg does not name the failing operation. -/
theorem C9_msg_misattributes_counterexample :
    mimeFailResponse.code = 1 ∧
    mimeFailResponse.msg =
      "err_msg: account is wrong value reason:called Result.unwrap on an Err value: bad mime structure" ∧
    ¬ List.IsInfix "parse".toList mimeFailResponse.msg.toList ∧
    ¬ List.IsInfix "generate_email_auth_input".toList mimeFailResponse.msg.toList ∧
    List.IsInfix "account is wrong value".toList mimeFailResponse.msg.toList := by
  refine ⟨rfl, rfl, by decide, by decide, by decide⟩

/-- C9 amended: every code-1 envelope produced from a core failure carries
"err_msg: <context> reason:<cause>" where the cause is the underlying
error or panic payload; for the emailnullifer, publickeyHash and emailHash
entry points the context names the failing core operation
("generate_email_nullifier failed", "generate_publickey_hash_for_java
failed", "generate_email_hash_for_java failed"), but for the
generateEmailInput entry point the context is the fixed text "account is
wrong value", which does not name the failing operation.  Each entry point
routes its decoded request through the boundary carrying exactly that
context string. -/
theorem C9_error_msg_structure :
    (∀ em e : String,
      (jni_boundary em (RustOutcome.err e)).msg =
        "err_msg: " ++ em ++ " reason:" ++ unwrapMsg e) ∧
    (∀ em p : String,
      (jni_boundary em (RustOutcome.panicked p)).msg =
        "err_msg: " ++ em ++ " reason:" ++ p) ∧
    (∀ (Fe : Type) (en : List Nat → Except String Fe) (f2h : Fe → String)
        (sig : List Nat),
      emailnullifer_entry en f2h (Except.ok sig) =
        jni_boundary "generate_email_nullifier failed"
          (generate_email_nullifier_for_java en f2h sig)) ∧
    (∀ (Fe : Type) (pkh : List Nat → Except String Fe) (f2h : Fe → String)
        (pk : List Nat),
      publickeyHash_entry pkh f2h (Except.ok pk) =
        jni_boundary "generate_publickey_hash_for_java failed"
          (generate_publickey_hash_for_java pkh f2h pk)) ∧
    (∀ (Fe Addr : Type) (pad : String → Addr)
        (h2f : String → Except String Fe)
        (salt : Addr → AccountCode Fe → Except String Fe) (f2h : Fe → String)
        (ea ac : String),
      emailHash_entry pad h2f salt f2h (Except.ok ea) (Except.ok ac) =
        jni_boundary "generate_email_hash_for_java failed"
          (generate_email_hash_for_java pad h2f salt f2h ea ac)) ∧
    (∀ (Fe : Type) (h2f : String → Except String Fe)
        (parse : String → Except String ParsedEmail)
        (v2b : List Nat → Int)
        (gen_circuit : CircuitInputParams → EmailCircuitInputs)
        (f2h : Fe → String) (toJson : EmailAuthInput → String)
        (email account_code : String),
      generateEmailInput_entry h2f parse v2b gen_circuit f2h toJson
          (Except.ok email) (Except.ok account_code) =
        jni_boundary "account is wrong value"
          (generateEmailInput_core h2f parse v2b gen_circuit f2h toJson
            email account_code)) := by
  refine ⟨fun em e => rfl, fun em p => rfl, ?_, ?_, ?_, ?_⟩
  · intro Fe en f2h sig
    rfl
  · intro Fe pkh f2h pk
    rfl
  · intro Fe Addr pad h2f salt f2h ea ac
    rfl
  · intro Fe h2f parse v2b gen_circuit f2h toJson email account_code
    rfl

/-- A byte accepted as a hex digit is ASCII. -/
theorem hexDigit?_ascii (c v : Nat) (h : hexDigit? c = some v) : c < 128 := by
  unfold hexDigit? at h
  split at h
  · next hc => omega
  · split at h
    · next hc => omega
    · split at h
      · next hc => omega
      · exact Option.noConfusion h

/-- The first byte of a successfully hex-decoded string is ASCII. -/
theorem hexDecode_head_ascii (c : Nat) (rest bs : List Nat)
    (h : hexDecode (c :: rest) = Except.ok bs) : c < 128 := by
  cases rest with
  | nil => simp [hexDecode] at h
  | cons c2 r2 =>
    unfold hexDecode at h
    cases hd1 : hexDigit? c with
    | none => rw [hd1] at h; simp at h
    | some hi => exact hexDigit?_ascii c hi hd1

/-- C10: the publickey hashing never inspects the 2-byte prefix it strips:
for any two leading bytes whatsoever, if the remainder hex-decodes and the
hash primitive accepts the reversed decoded bytes, the function succeeds
and hex-encodes the primitive's output — the prefix need not be "0x". -/
theorem C10_prefix_not_inspected {Fe : Type}
    (public_key_hash : List Nat → Except String Fe) (f2h : Fe → String)
    (p1 p2 : Nat) (rest bytes : List Nat) (fe : Fe)
    (hdec : hexDecode rest = Except.ok bytes)
    (hhash : public_key_hash bytes.reverse = Except.ok fe) :
    generate_publickey_hash_for_java public_key_hash f2h (p1 :: p2 :: rest) =
      RustOutcome.ok (f2h fe) := by
  have hb : isCharBoundary (p1 :: p2 :: rest) 2 = true := by
    cases rest with
    | nil => simp [isCharBoundary]
    | cons c r =>
      have hc : c < 128 := hexDecode_head_ascii c r bytes hdec
      simp [isCharBoundary, hc]
  have hcond : 2 ≤ (p1 :: p2 :: rest).length ∧ isCharBoundary (p1 :: p2 :: rest) 2 := by
    exact ⟨by simp, hb⟩
  have hs : rustStrFrom2 (p1 :: p2 :: rest) = RustOutcome.ok rest := by
    unfold rustStrFrom2
    rw [if_pos hcond]
    rfl
  unfold generate_publickey_hash_for_java
  rw [hs]
  simp only [hdec, hhash]

/-- Witness for C10, the spec's byte-order scenario with a non-"0x"
prefix: on input bytes "Z!aabb" the remainder decodes to [0xAA, 0xBB],
reverses to [0xBB, 0xAA], and the recording stub primitive receives
exactly that sequence. -/
theorem C10_prefix_not_inspected_witness :
    generate_publickey_hash_for_java (fun bs => Except.ok bs)
        (fun bs => toString bs) [90, 33, 97, 97, 98, 98] =
      RustOutcome.ok "[187, 170]" := by
  have h := C10_prefix_not_inspected (fun bs => Except.ok bs)
    (fun bs => toString bs) 90 33 [97, 97, 98, 98] [170, 187] [187, 170] rfl rfl
  simpa using h
